import Mathlib

set_option linter.unusedVariables false

namespace Xgent

/-! Shallow embedding of the Xgent task-execution core.

The declarative resource model and its parser are embedded from
internal/crd (types and Validate methods, parser.go).  YAML text decoding
is abstracted: a document is represented by the field values the Go
structs read out of it (a missing field decodes to the zero value, an
unknown field is ignored), which is exactly the yaml.v3 behaviour the
code relies on. -/

/-- Resource metadata, crd types: Metadata. -/
structure Metadata where
  name : String := ""
  description : String := ""
  labels : List (String × String) := []
  annotations : List (String × String) := []
deriving DecidableEq, Repr

/-- Soul spec, crd types: SoulSpec. -/
structure SoulSpec where
  personality : String := ""
  capabilities : List String := []
  constraints : List String := []
  examples : List String := []
deriving DecidableEq, Repr

/-- Mind spec, crd types: MindSpec.  The float32 temperature field is
carried as an integer scalar; no arithmetic is ever performed on it. -/
structure MindSpec where
  provider : String := ""
  modelID : String := ""
  apiKey : String := ""
  baseURL : String := ""
  temperature : Int := 0
  maxTokens : Nat := 0
  headers : List (String × String) := []
deriving DecidableEq, Repr

/-- Tool descriptor inside a Craft, crd types: ToolConfig.  The untyped
config map is carried as an association list. -/
structure ToolConfig where
  name : String := ""
  type : String := ""
  config : List (String × String) := []
  enabled : Bool := false
deriving DecidableEq, Repr

/-- External tool-server launch spec, crd types: MCPServer. -/
structure MCPServer where
  name : String := ""
  command : String := ""
  args : List String := []
  env : List (String × String) := []
deriving DecidableEq, Repr

/-- Tool-server bundle, crd types: MCPConfig. -/
structure MCPConfig where
  servers : List MCPServer := []
deriving DecidableEq, Repr

/-- Craft spec, crd types: CraftSpec. -/
structure CraftSpec where
  tools : List ToolConfig := []
  instructions : String := ""
  environment : List (String × String) := []
  mcp : Option MCPConfig := none
deriving DecidableEq, Repr

/-- Robot spec, crd types: RobotSpec. -/
structure RobotSpec where
  soul : String := ""
  mind : String := ""
  craft : String := ""
  sessionID : String := ""
  maxHistory : Nat := 0
deriving DecidableEq, Repr

/-- Team spec, crd types: TeamSpec.  The collaboration mode is a plain
string in the source (type CollaborationMode string) and is not
validated. -/
structure TeamSpec where
  leader : String := ""
  members : List String := []
  mode : String := ""
  craft : String := ""
  description : String := ""
deriving DecidableEq, Repr

/-- Collaboration step, crd types: CollaborationStep. -/
structure CollaborationStep where
  name : String := ""
  agent : String := ""
  dependsOn : List String := []
  condition : String := ""
deriving DecidableEq, Repr

/-- Collaboration spec, crd types: CollaborationSpec. -/
structure CollaborationSpec where
  type : String := ""
  steps : List CollaborationStep := []
  conditions : List (String × String) := []
deriving DecidableEq, Repr

/-- Soul resource, crd types: Soul. -/
structure Soul where
  apiVersion : String := ""
  kind : String := ""
  metadata : Metadata := {}
  spec : SoulSpec := {}
deriving DecidableEq, Repr

/-- Mind resource, crd types: Mind. -/
structure Mind where
  apiVersion : String := ""
  kind : String := ""
  metadata : Metadata := {}
  spec : MindSpec := {}
deriving DecidableEq, Repr

/-- Craft resource, crd types: Craft. -/
structure Craft where
  apiVersion : String := ""
  kind : String := ""
  metadata : Metadata := {}
  spec : CraftSpec := {}
deriving DecidableEq, Repr

/-- Robot resource, crd types: Robot. -/
structure Robot where
  apiVersion : String := ""
  kind : String := ""
  metadata : Metadata := {}
  spec : RobotSpec := {}
deriving DecidableEq, Repr

/-- Team resource, crd types: Team. -/
structure Team where
  apiVersion : String := ""
  kind : String := ""
  metadata : Metadata := {}
  spec : TeamSpec := {}
deriving DecidableEq, Repr

/-- Collaboration resource, crd types: Collaboration. -/
structure Collaboration where
  apiVersion : String := ""
  kind : String := ""
  metadata : Metadata := {}
  spec : CollaborationSpec := {}
deriving DecidableEq, Repr

/-- Typed resource value, the crd Resource interface with its six
implementations. -/
inductive Resource where
  | soul (s : Soul)
  | mind (m : Mind)
  | craft (c : Craft)
  | robot (r : Robot)
  | team (t : Team)
  | collaboration (c : Collaboration)
deriving DecidableEq, Repr

/-- GetKind of each implementation (crd types). -/
def Resource.getKind : Resource → String
  | .soul _ => "Soul"
  | .mind _ => "Mind"
  | .craft _ => "Craft"
  | .robot _ => "Robot"
  | .team _ => "Team"
  | .collaboration _ => "Collaboration"

/-- Soul.Validate, crd types. -/
def Soul.validate (s : Soul) : Except String Unit :=
  if s.metadata.name = "" then .error "invalid metadata"
  else if s.spec.personality = "" then .error "invalid spec"
  else .ok ()

/-- Mind.Validate, crd types. -/
def Mind.validate (m : Mind) : Except String Unit :=
  if m.metadata.name = "" then .error "invalid metadata"
  else if m.spec.provider = "" ∨ m.spec.modelID = "" then .error "invalid spec"
  else .ok ()

/-- Craft.Validate, crd types. -/
def Craft.validate (c : Craft) : Except String Unit :=
  if c.metadata.name = "" then .error "invalid metadata"
  else .ok ()

/-- Robot.Validate, crd types. -/
def Robot.validate (r : Robot) : Except String Unit :=
  if r.metadata.name = "" then .error "invalid metadata"
  else if r.spec.soul = "" ∨ r.spec.mind = "" then .error "invalid spec"
  else .ok ()

/-- Team.Validate, crd types. -/
def Team.validate (t : Team) : Except String Unit :=
  if t.metadata.name = "" then .error "invalid metadata"
  else if t.spec.members = [] then .error "invalid spec"
  else .ok ()

/-- Collaboration.Validate, crd types. -/
def Collaboration.validate (c : Collaboration) : Except String Unit :=
  if c.metadata.name = "" then .error "invalid metadata"
  else .ok ()

/-- Validate dispatch over the Resource interface. -/
def Resource.validate : Resource → Except String Unit
  | .soul s => s.validate
  | .mind m => m.validate
  | .craft c => c.validate
  | .robot r => r.validate
  | .team t => t.validate
  | .collaboration c => c.validate

/-- Union of every spec field any of the six kinds reads from a decoded
document; a field absent from the document holds its zero value, exactly
as yaml.v3 decoding into the kind-specific Go struct behaves. -/
structure SpecFields where
  personality : String := ""
  capabilities : List String := []
  constraints : List String := []
  examples : List String := []
  provider : String := ""
  modelID : String := ""
  apiKey : String := ""
  baseURL : String := ""
  temperature : Int := 0
  maxTokens : Nat := 0
  headers : List (String × String) := []
  tools : List ToolConfig := []
  instructions : String := ""
  environment : List (String × String) := []
  mcp : Option MCPConfig := none
  soul : String := ""
  mind : String := ""
  craft : String := ""
  sessionID : String := ""
  maxHistory : Nat := 0
  leader : String := ""
  members : List String := []
  mode : String := ""
  description : String := ""
  type : String := ""
  steps : List CollaborationStep := []
  conditions : List (String × String) := []
deriving DecidableEq, Repr

/-- A decoded YAML document: the values the Go structs read out of it. -/
structure RawDoc where
  apiVersion : String := ""
  kind : String := ""
  metadata : Metadata := {}
  spec : SpecFields := {}
deriving DecidableEq, Repr

/-- Decoding a document into the Soul struct (yaml.Unmarshal into Soul). -/
def decodeSoul (d : RawDoc) : Soul :=
  { apiVersion := d.apiVersion, kind := d.kind, metadata := d.metadata,
    spec := { personality := d.spec.personality, capabilities := d.spec.capabilities,
              constraints := d.spec.constraints, examples := d.spec.examples } }

/-- Decoding a document into the Mind struct (yaml.Unmarshal into Mind). -/
def decodeMind (d : RawDoc) : Mind :=
  { apiVersion := d.apiVersion, kind := d.kind, metadata := d.metadata,
    spec := { provider := d.spec.provider, modelID := d.spec.modelID,
              apiKey := d.spec.apiKey, baseURL := d.spec.baseURL,
              temperature := d.spec.temperature, maxTokens := d.spec.maxTokens,
              headers := d.spec.headers } }

/-- Decoding a document into the Craft struct (yaml.Unmarshal into Craft). -/
def decodeCraft (d : RawDoc) : Craft :=
  { apiVersion := d.apiVersion, kind := d.kind, metadata := d.metadata,
    spec := { tools := d.spec.tools, instructions := d.spec.instructions,
              environment := d.spec.environment, mcp := d.spec.mcp } }

/-- Decoding a document into the Robot struct (yaml.Unmarshal into Robot). -/
def decodeRobot (d : RawDoc) : Robot :=
  { apiVersion := d.apiVersion, kind := d.kind, metadata := d.metadata,
    spec := { soul := d.spec.soul, mind := d.spec.mind, craft := d.spec.craft,
              sessionID := d.spec.sessionID, maxHistory := d.spec.maxHistory } }

/-- Decoding a document into the Team struct (yaml.Unmarshal into Team). -/
def decodeTeam (d : RawDoc) : Team :=
  { apiVersion := d.apiVersion, kind := d.kind, metadata := d.metadata,
    spec := { leader := d.spec.leader, members := d.spec.members,
              mode := d.spec.mode, craft := d.spec.craft,
              description := d.spec.description } }

/-- Decoding a document into the Collaboration struct. -/
def decodeCollaboration (d : RawDoc) : Collaboration :=
  { apiVersion := d.apiVersion, kind := d.kind, metadata := d.metadata,
    spec := { type := d.spec.type, steps := d.spec.steps,
              conditions := d.spec.conditions } }

/-- The single recognized apiVersion (crd types: APIVersion). -/
def APIVersion : String := "xgent.ai/v1"

/-- The kind switch of Parser.Parse (parser.go lines 49 to 88): decode the
document into the struct named by its kind field, or fail on an unknown
kind. -/
def parseKind (d : RawDoc) : Except String Resource :=
  if d.kind = "Soul" then .ok (.soul (decodeSoul d))
  else if d.kind = "Mind" then .ok (.mind (decodeMind d))
  else if d.kind = "Craft" then .ok (.craft (decodeCraft d))
  else if d.kind = "Robot" then .ok (.robot (decodeRobot d))
  else if d.kind = "Team" then .ok (.team (decodeTeam d))
  else if d.kind = "Collaboration" then .ok (.collaboration (decodeCollaboration d))
  else .error ("unknown resource kind: " ++ d.kind)

/-- Parser.Parse (parser.go lines 31 to 96) on a decoded document: check
the apiVersion, decode by kind, then run the kind-specific validation. -/
def parse (d : RawDoc) : Except String Resource :=
  if d.apiVersion ≠ APIVersion then
    .error ("unsupported API version: " ++ d.apiVersion)
  else
    match parseKind d with
    | .error e => .error e
    | .ok resource =>
      match resource.validate with
      | .error e => .error ("validation failed: " ++ e)
      | .ok _ => .ok resource

/-- Emission of a Soul back to a document (yaml.Marshal of the struct):
only the Soul fields are present, every other spec field of a re-decoded
document holds its zero value. -/
def marshalSoul (s : Soul) : RawDoc :=
  { apiVersion := s.apiVersion, kind := s.kind, metadata := s.metadata,
    spec := { personality := s.spec.personality, capabilities := s.spec.capabilities,
              constraints := s.spec.constraints, examples := s.spec.examples } }

/-- Emission of a Mind back to a document. -/
def marshalMind (m : Mind) : RawDoc :=
  { apiVersion := m.apiVersion, kind := m.kind, metadata := m.metadata,
    spec := { provider := m.spec.provider, modelID := m.spec.modelID,
              apiKey := m.spec.apiKey, baseURL := m.spec.baseURL,
              temperature := m.spec.temperature, maxTokens := m.spec.maxTokens,
              headers := m.spec.headers } }

/-- Emission of a Craft back to a document. -/
def marshalCraft (c : Craft) : RawDoc :=
  { apiVersion := c.apiVersion, kind := c.kind, metadata := c.metadata,
    spec := { tools := c.spec.tools, instructions := c.spec.instructions,
              environment := c.spec.environment, mcp := c.spec.mcp } }

/-- Emission of a Robot back to a document. -/
def marshalRobot (r : Robot) : RawDoc :=
  { apiVersion := r.apiVersion, kind := r.kind, metadata := r.metadata,
    spec := { soul := r.spec.soul, mind := r.spec.mind, craft := r.spec.craft,
              sessionID := r.spec.sessionID, maxHistory := r.spec.maxHistory } }

/-- Emission of a Team back to a document. -/
def marshalTeam (t : Team) : RawDoc :=
  { apiVersion := t.apiVersion, kind := t.kind, metadata := t.metadata,
    spec := { leader := t.spec.leader, members := t.spec.members,
              mode := t.spec.mode, craft := t.spec.craft,
              description := t.spec.description } }

/-- Emission of a Collaboration back to a document. -/
def marshalCollaboration (c : Collaboration) : RawDoc :=
  { apiVersion := c.apiVersion, kind := c.kind, metadata := c.metadata,
    spec := { type := c.spec.type, steps := c.spec.steps,
              conditions := c.spec.conditions } }

/-- Parser.Marshal (parser.go lines 131 to 134): convert a resource back
to a document. -/
def marshal : Resource → RawDoc
  | .soul s => marshalSoul s
  | .mind m => marshalMind m
  | .craft c => marshalCraft c
  | .robot r => marshalRobot r
  | .team t => marshalTeam t
  | .collaboration c => marshalCollaboration c

/-- The set of kind strings Parser.Parse recognizes. -/
def knownKind (k : String) : Bool :=
  k = "Soul" || k = "Mind" || k = "Craft" || k = "Robot" ||
  k = "Team" || k = "Collaboration"

/-! Task status and the task queue, from storage models and
orchestrator queue.go. -/

/-- Task statuses, storage models: TaskStatus. -/
inductive TaskStatus where
  | pending
  | running
  | completed
  | failed
  | cancelled
deriving DecidableEq, Repr, Fintype

/-- Terminal statuses per the lifecycle: completed, failed, cancelled. -/
def TaskStatus.isTerminal : TaskStatus → Bool
  | .completed => true
  | .failed => true
  | .cancelled => true
  | _ => false

/-- One invocation of a ProgressCallback (storage models line 200):
task id, progress, status and message.  The metadata map is omitted. -/
structure CallbackCall where
  taskId : Nat
  progress : Int
  status : TaskStatus
  message : String
deriving DecidableEq, Repr

/-- A queued task item, queue.go TaskItem: the wrapped task (only its id
matters to the queue) and whether a callback was supplied. -/
structure TaskItem where
  taskId : Nat
  hasCallback : Bool
deriving DecidableEq, Repr

/-- Queue state, queue.go TaskQueue: the bounded channel contents, its
capacity (100, NewTaskQueue line 36) and the active map as an
association list keyed by task id. -/
structure TaskQueue where
  tasks : List TaskItem
  capacity : Nat
  active : List (Nat × TaskItem)
deriving DecidableEq, Repr

/-- NewTaskQueue, queue.go lines 33 to 42. -/
def newTaskQueue : TaskQueue :=
  { tasks := [], capacity := 100, active := [] }

/-- TaskQueue.Enqueue, queue.go lines 60 to 77: a non-blocking send on
the bounded channel (succeeds exactly when the buffer has room); on
success the item is registered in the active map, on a full channel the
error is returned and nothing changes. -/
def TaskQueue.enqueue (q : TaskQueue) (taskId : Nat) (hasCallback : Bool) :
    TaskQueue × Option String :=
  let item : TaskItem := { taskId := taskId, hasCallback := hasCallback }
  if q.tasks.length < q.capacity then
    ({ q with tasks := q.tasks ++ [item], active := (taskId, item) :: q.active }, none)
  else
    (q, some "queue is full")

/-- Primitive effects of TaskQueue.Cancel, in the order the code performs
them. -/
inductive QueueAction where
  | invokeCallback (call : CallbackCall)
  | removeActive (taskId : Nat)
deriving DecidableEq, Repr

/-- TaskQueue.Cancel, queue.go lines 80 to 97: unknown id returns an
error with no effects; a known id fires the callback with status
cancelled (when a callback is present) and then deletes the active
entry.  The returned action list is the effect trace in program order. -/
def TaskQueue.cancel (q : TaskQueue) (taskId : Nat) :
    TaskQueue × Option String × List QueueAction :=
  match q.active.lookup taskId with
  | none => (q, some ("task not found: " ++ toString taskId), [])
  | some item =>
    let calls :=
      if item.hasCallback then
        [QueueAction.invokeCallback
          { taskId := taskId, progress := 0, status := .cancelled,
            message := "Task cancelled by user" }]
      else []
    ({ q with active := q.active.filter (fun p => p.1 != taskId) },
     none, calls ++ [QueueAction.removeActive taskId])

/-! The event broadcaster, handlers event_broadcaster.go.  The maps are
keyed by task id and entries of distinct ids never interact, so the
state below is that of a single task id. -/

/-- Broadcast event, handlers TaskEvent.  The wall-clock timestamp is
omitted. -/
structure TaskEvent where
  taskId : Nat := 0
  type : String := ""
  content : String := ""
  progress : Int := 0
  status : String := ""
  eventType : String := ""
deriving DecidableEq, Repr

/-- Buffer cap, event_broadcaster.go line 10. -/
def maxEventBuffer : Nat := 200

/-- Subscriber channel capacity, Subscribe line 78. -/
def subscriberChanCap : Nat := 200

/-- Per-task broadcaster state: the replay buffer and the subscriber
channels.  A channel is modelled by the ordered list of events delivered
to it; with no consumer draining it, its length is its occupancy. -/
structure Broadcaster where
  buffer : List TaskEvent
  subscriberChans : List (List TaskEvent)
deriving DecidableEq, Repr

/-- The empty broadcaster state for a task id with no buffer and no
subscribers. -/
def Broadcaster.empty : Broadcaster :=
  { buffer := [], subscriberChans := [] }

/-- The non-blocking try-send of Broadcast (lines 152 to 159): deliver
when the channel has room, silently skip the subscriber otherwise. -/
def trySend (ch : List TaskEvent) (e : TaskEvent) : List TaskEvent :=
  if ch.length < subscriberChanCap then ch ++ [e] else ch

/-- EventBroadcaster.Broadcast, lines 126 to 160: append the event to the
buffer only while the cap of 200 is not reached (overflow is dropped, not
rotated), then try-send to every subscriber channel. -/
def Broadcaster.broadcast (b : Broadcaster) (e : TaskEvent) : Broadcaster :=
  let buffer :=
    if b.buffer.length < maxEventBuffer then b.buffer ++ [e] else b.buffer
  { buffer := buffer,
    subscriberChans := b.subscriberChans.map (fun ch => trySend ch e) }

/-- Broadcast of a sequence of events in order. -/
def Broadcaster.broadcastAll (b : Broadcaster) (es : List TaskEvent) : Broadcaster :=
  es.foldl Broadcaster.broadcast b

/-- The synchronous replay loop of Subscribe (lines 82 to 96): push the
buffered events into the fresh channel until the channel is full, then
stop. -/
def replayInto (ch : List TaskEvent) : List TaskEvent → List TaskEvent
  | [] => ch
  | e :: rest =>
    if ch.length < subscriberChanCap then replayInto (ch ++ [e]) rest else ch

/-- EventBroadcaster.Subscribe, lines 74 to 103: create an empty channel
of capacity 200, append it to the subscriber list, and synchronously
replay the current buffer into it. -/
def Broadcaster.subscribe (b : Broadcaster) : Broadcaster :=
  { b with subscriberChans := b.subscriberChans ++ [replayInto [] b.buffer] }

/-! The status writes.  Every code site that stores a task status does so
unconditionally; no site inspects the current status first. -/

/-- The code sites that write a task status: AgnoExecutor.Execute setting
running at start (part_011 line 437), completed on success (line 479) and
failed on error (line 469); the progress callback of TaskHandler.Create
storing the status it was invoked with (task_handler.go line 127); and
TaskHandler.Cancel storing cancelled (line 273). -/
inductive StatusWrite where
  | executorStart
  | executorComplete
  | executorFail
  | callbackUpdate (status : TaskStatus)
  | handlerCancel
deriving DecidableEq, Repr

/-- Effect of one status write on the stored status.  Each write is
unconditional in the source, so the previous status is ignored. -/
def applyStatusWrite : StatusWrite → TaskStatus → TaskStatus
  | .executorStart, _ => .running
  | .executorComplete, _ => .completed
  | .executorFail, _ => .failed
  | .callbackUpdate s, _ => s
  | .handlerCancel, _ => .cancelled

/-- Folding a sequence of status writes over a starting status. -/
def runStatusWrites (ws : List StatusWrite) (s : TaskStatus) : TaskStatus :=
  ws.foldl (fun cur w => applyStatusWrite w cur) s

/-- The transitions of the documented status machine: pending to running,
running to a terminal status, and pending to cancelled. -/
def allowedTransition : TaskStatus → TaskStatus → Bool
  | .pending, .running => true
  | .running, .completed => true
  | .running, .failed => true
  | .running, .cancelled => true
  | .pending, .cancelled => true
  | _, _ => false

/-! The streaming executor, part_011 AgnoExecutor. -/

/-- A decoded NDJSON runner event: the fields runAgnoScript reads (the
details object is not consumed by the accumulation logic and is
omitted). -/
structure AgnoEvent where
  type : String := ""
  content : String := ""
deriving DecidableEq, Repr

/-- One stdout line of the runner subprocess: the raw text and its JSON
decoding, none when the line is not valid JSON. -/
structure ScriptLine where
  raw : String := ""
  event : Option AgnoEvent := none
deriving DecidableEq, Repr

/-- State reached by the stdout read loop of runAgnoScript. -/
structure RunLoopResult where
  fullContent : String
  eventLogs : List String
  lastError : String
  cancelledEarly : Bool
deriving DecidableEq, Repr

/-- The stdout read loop of runAgnoScript (part_011 lines 893 to 1021):
non-JSON lines are skipped; every decoded event line is appended to the
event logs; a content event appends its content field to the accumulated
result; an error event is remembered as the last error without aborting
the loop; a cancelled event returns immediately; every other type only
logs and reports progress. -/
def runLoop : List ScriptLine → String → List String → String → RunLoopResult
  | [], content, logs, lastErr =>
    { fullContent := content, eventLogs := logs, lastError := lastErr,
      cancelledEarly := false }
  | line :: rest, content, logs, lastErr =>
    match line.event with
    | none => runLoop rest content logs lastErr
    | some ev =>
      let logs2 := logs ++ [line.raw]
      if ev.type = "content" then
        runLoop rest (content ++ ev.content) logs2 lastErr
      else if ev.type = "cancelled" then
        { fullContent := content, eventLogs := logs2, lastError := lastErr,
          cancelledEarly := true }
      else if ev.type = "error" then
        runLoop rest content logs2 ev.content
      else
        runLoop rest content logs2 lastErr

/-- AgnoExecutor.runAgnoScript (part_011 lines 825 to 1031) as a function
of the observable subprocess behaviour: whether the runner script exists,
the stdout lines, and the exit of the subprocess (none for exit code 0,
some message for a non-zero exit).  On a cancelled event the function
returns before awaiting the exit.  On a non-zero exit the accumulated
result and event logs are replaced by empty strings in the returned
tuple. -/
def runAgnoScript (scriptExists : Bool) (scriptPath : String)
    (lines : List ScriptLine) (exitErr : Option String) :
    Except String (String × String) :=
  if ¬scriptExists then
    .error ("agno runner script not found at " ++ scriptPath)
  else
    let r := runLoop lines "" [] ""
    if r.cancelledEarly then
      .ok (r.fullContent, String.intercalate "\n" r.eventLogs)
    else
      match exitErr with
      | some we =>
        if r.lastError ≠ "" then .error ("python script error: " ++ r.lastError)
        else .error ("python script finished with error: " ++ we)
      | none => .ok (r.fullContent, String.intercalate "\n" r.eventLogs)

/-- The task row fields AgnoExecutor.Execute writes.  Timestamps and
duration are outside the model. -/
structure TaskRec where
  status : TaskStatus := .pending
  progress : Nat := 0
  result : String := ""
  eventLogs : String := ""
  error : String := ""
deriving DecidableEq, Repr

/-- Start of AgnoExecutor.Execute (part_011 line 437): store status
running. -/
def executeStart (t : TaskRec) : TaskRec :=
  { t with status := .running }

/-- Tail of AgnoExecutor.Execute (part_011 lines 463 to 492): on error
store status failed and the error message, leaving result and event logs
untouched; on success store status completed, the result, progress 100
and the event logs. -/
def executeFinalize (t : TaskRec) (outcome : Except String (String × String)) :
    TaskRec :=
  match outcome with
  | .error e => { t with status := .failed, error := e }
  | .ok (result, eventLogs) =>
    { t with status := .completed, result := result, progress := 100,
             eventLogs := eventLogs }

/-! Resource resolution inside the executor, part_011 executeBot,
executeTeam and loadRobotAsMember.  The repository is a parameter mapping
a kind and a name to the stored spec document or a lookup error. -/

/-- Outcome of Go code that can return a value, return an error, or panic
on a failed type assertion. -/
inductive ExecOutcome (α : Type) where
  | ok (a : α)
  | err (msg : String)
  | panicked (msg : String)
deriving DecidableEq, Repr

/-- Provider configuration block of the runner stdin JSON. -/
structure AgnoModelConfig where
  provider : String := ""
  modelID : String := ""
  apiKey : String := ""
  baseURL : String := ""
deriving DecidableEq, Repr

/-- Soul block of the runner stdin JSON. -/
structure AgnoSoulConfig where
  name : String := ""
  personality : String := ""
deriving DecidableEq, Repr

/-- Team member block of the runner stdin JSON. -/
structure AgnoMemberConfig where
  name : String := ""
  model : AgnoModelConfig := {}
  personality : String := ""
  description : String := ""
deriving DecidableEq, Repr

/-- Team block of the runner stdin JSON. -/
structure AgnoTeamConfig where
  name : String := ""
  mode : String := ""
  leader : Option AgnoMemberConfig := none
  members : List AgnoMemberConfig := []
  description : String := ""
deriving DecidableEq, Repr

/-- The runner stdin configuration, part_011 AgnoConfig.  Context, MCP
tools and the constant execution options are omitted; the claims do not
mention them. -/
structure AgnoConfig where
  type : String := ""
  prompt : String := ""
  sessionID : String := ""
  model : AgnoModelConfig := {}
  soul : AgnoSoulConfig := {}
  team : Option AgnoTeamConfig := none
deriving DecidableEq, Repr

/-- AgnoExecutor.executeBot resolution (part_011 lines 563 to 636).  The
robot spec parse error is checked, but the soul and mind parse errors are
assigned to the blank identifier and discarded; the following direct type
assertion panics whenever the parse failed or produced another kind. -/
def executeBot (repo : String → String → Except String RawDoc)
    (taskId : Nat) (prompt resourceName : String) : ExecOutcome AgnoConfig :=
  match repo "Robot" resourceName with
  | .error e => .err ("failed to load robot: " ++ e)
  | .ok robotDoc =>
    match parse robotDoc with
    | .error e => .err ("failed to parse robot spec: " ++ e)
    | .ok (.robot robot) =>
      match repo "Soul" robot.spec.soul with
      | .error e => .err ("failed to load soul: " ++ e)
      | .ok soulDoc =>
        match parse soulDoc with
        | .ok (.soul soul) =>
          match repo "Mind" robot.spec.mind with
          | .error e => .err ("failed to load mind: " ++ e)
          | .ok mindDoc =>
            match parse mindDoc with
            | .ok (.mind mind) =>
              .ok { type := "robot", prompt := prompt,
                    sessionID := "task-" ++ toString taskId,
                    model := { provider := mind.spec.provider,
                               modelID := mind.spec.modelID,
                               apiKey := mind.spec.apiKey,
                               baseURL := mind.spec.baseURL },
                    soul := { name := robot.metadata.name,
                              personality := soul.spec.personality } }
            | _ => .panicked "interface conversion: crd.Resource is not *crd.Mind"
        | _ => .panicked "interface conversion: crd.Resource is not *crd.Soul"
    | .ok _ => .err "invalid robot resource"

/-- AgnoExecutor.loadRobotAsMember (part_011 lines 776 to 822): load one
robot with its soul and mind as a team member config.  The robot type
assertion uses the comma-ok form and returns an error; the soul and mind
parses discard their errors and the direct assertions panic on
failure. -/
def loadRobotAsMember (repo : String → String → Except String RawDoc)
    (robotName : String) : ExecOutcome (AgnoMemberConfig × MindSpec) :=
  match repo "Robot" robotName with
  | .error e => .err ("failed to load robot: " ++ e)
  | .ok robotDoc =>
    match parse robotDoc with
    | .error e => .err ("failed to parse robot spec: " ++ e)
    | .ok (.robot robot) =>
      match repo "Soul" robot.spec.soul with
      | .error e => .err ("failed to load soul: " ++ e)
      | .ok soulDoc =>
        match parse soulDoc with
        | .ok (.soul soul) =>
          match repo "Mind" robot.spec.mind with
          | .error e => .err ("failed to load mind: " ++ e)
          | .ok mindDoc =>
            match parse mindDoc with
            | .ok (.mind mind) =>
              .ok ({ name := robot.metadata.name,
                     personality := soul.spec.personality,
                     model := { provider := mind.spec.provider,
                                modelID := mind.spec.modelID,
                                apiKey := mind.spec.apiKey,
                                baseURL := mind.spec.baseURL } },
                   mind.spec)
            | _ => .panicked "interface conversion: crd.Resource is not *crd.Mind"
        | _ => .panicked "interface conversion: crd.Resource is not *crd.Soul"
    | .ok _ => .err "invalid robot resource"

/-- The member loop of executeTeam (part_011 lines 678 to 691): an error
from loading a member is a warning that skips the member; a panic
propagates; on success the member is appended and, when no mind was
selected yet, the mind of this member is selected. -/
def loadMembersLoop (repo : String → String → Except String RawDoc) :
    List String → List AgnoMemberConfig → Option MindSpec →
    ExecOutcome (List AgnoMemberConfig × Option MindSpec)
  | [], acc, leaderMind => .ok (acc, leaderMind)
  | name :: rest, acc, leaderMind =>
    match loadRobotAsMember repo name with
    | .err _ => loadMembersLoop repo rest acc leaderMind
    | .panicked m => .panicked m
    | .ok (member, mindSpec) =>
      loadMembersLoop repo rest (acc ++ [member])
        (match leaderMind with
         | none => some mindSpec
         | some m => some m)

/-- AgnoExecutor.executeTeam resolution (part_011 lines 639 to 730): load
and parse the team, load the leader when one is named (failure aborts the
plan), load the members skipping individual failures, fail when zero
members loaded and no leader, and drive the provider configuration with
the selected mind. -/
def executeTeam (repo : String → String → Except String RawDoc)
    (taskId : Nat) (prompt resourceName : String) : ExecOutcome AgnoConfig :=
  match repo "Team" resourceName with
  | .error e => .err ("failed to load team: " ++ e)
  | .ok teamDoc =>
    match parse teamDoc with
    | .error e => .err ("failed to parse team spec: " ++ e)
    | .ok (.team teamDef) =>
      let leaderStep : ExecOutcome (Option AgnoMemberConfig × Option MindSpec) :=
        if teamDef.spec.leader ≠ "" then
          match loadRobotAsMember repo teamDef.spec.leader with
          | .err e => .err ("failed to load leader robot: " ++ e)
          | .panicked m => .panicked m
          | .ok (member, mindSpec) => .ok (some member, some mindSpec)
        else .ok (none, none)
      match leaderStep with
      | .err e => .err e
      | .panicked m => .panicked m
      | .ok (leaderCfg, leaderMind0) =>
        match loadMembersLoop repo teamDef.spec.members [] leaderMind0 with
        | .panicked m => .panicked m
        | .err e => .err e
        | .ok (members, leaderMind) =>
          if members = [] ∧ leaderCfg = none then
            .err "team has no valid members or leader"
          else
            match leaderMind with
            | none => .err "no mind found for team"
            | some mindSpec =>
              .ok { type := "team", prompt := prompt,
                    sessionID := "task-" ++ toString taskId,
                    model := { provider := mindSpec.provider,
                               modelID := mindSpec.modelID,
                               apiKey := mindSpec.apiKey,
                               baseURL := mindSpec.baseURL },
                    team := some { name := teamDef.metadata.name,
                                   mode := teamDef.spec.mode,
                                   description := teamDef.spec.description,
                                   leader := leaderCfg, members := members } }
    | .ok _ => .err "invalid team resource"

/-! Claim theorems. -/

/-- C1 counterexample: the claim states that once a task has entered a
terminal status no later operation changes its status again; but every
status write in the code is unconditional, so the worker finishing after
a Cancel overwrites the terminal status cancelled with completed. -/
theorem C1_counterexample :
    TaskStatus.isTerminal .cancelled = true ∧
    applyStatusWrite .executorComplete .cancelled = .completed ∧
    (TaskStatus.completed ≠ TaskStatus.cancelled) := by decide

/-- C1 amended: each status write performs the intended forward
transition of the machine pending to running to a terminal status, with
cancelled also reachable from pending; but terminal statuses are not
absorbing: the worker finishing overwrites cancelled with completed or
failed, and a progress callback carrying status running overwrites any
terminal status. -/
theorem C1_status_machine :
    (applyStatusWrite .executorStart .pending = .running ∧
      allowedTransition .pending .running = true) ∧
    (applyStatusWrite .executorComplete .running = .completed ∧
      allowedTransition .running .completed = true) ∧
    (applyStatusWrite .executorFail .running = .failed ∧
      allowedTransition .running .failed = true) ∧
    (applyStatusWrite (.callbackUpdate .cancelled) .pending = .cancelled ∧
      allowedTransition .pending .cancelled = true) ∧
    (applyStatusWrite (.callbackUpdate .cancelled) .running = .cancelled ∧
      allowedTransition .running .cancelled = true) ∧
    (applyStatusWrite .executorComplete .cancelled = .completed ∧
      applyStatusWrite .executorFail .cancelled = .failed) ∧
    (applyStatusWrite (.callbackUpdate .running) .completed = .running ∧
      applyStatusWrite (.callbackUpdate .running) .failed = .running ∧
      applyStatusWrite (.callbackUpdate .running) .cancelled = .running) := by
  decide

/-- C6: Enqueue never blocks: on a full channel it returns the queue-full
error and leaves the whole queue state, in particular the active set,
unchanged; on success the task id is registered in the active set. -/
theorem C6_enqueue_nonblocking (q : TaskQueue) (taskId : Nat) (hasCallback : Bool) :
    (q.capacity ≤ q.tasks.length →
      q.enqueue taskId hasCallback = (q, some "queue is full")) ∧
    (q.tasks.length < q.capacity →
      (q.enqueue taskId hasCallback).2 = none ∧
      (q.enqueue taskId hasCallback).1.active.lookup taskId =
        some { taskId := taskId, hasCallback := hasCallback }) := by
  constructor
  · intro h
    simp [TaskQueue.enqueue, Nat.not_lt.mpr h]
  · intro h
    simp [TaskQueue.enqueue, h, List.lookup]

/-- A queue whose channel is full, for the C6 witness. -/
def fullQueue : TaskQueue :=
  { tasks := List.replicate 100 { taskId := 1, hasCallback := true },
    capacity := 100, active := [] }

/-- C6 witness at concrete inputs: a fresh queue accepts an enqueue and
registers the id; a full queue refuses it unchanged. -/
theorem C6_enqueue_nonblocking_witness :
    ((newTaskQueue.enqueue 7 true).2 = none ∧
      (newTaskQueue.enqueue 7 true).1.active.lookup 7 =
        some { taskId := 7, hasCallback := true }) ∧
    fullQueue.enqueue 7 true = (fullQueue, some "queue is full") :=
  ⟨(C6_enqueue_nonblocking newTaskQueue 7 true).2 (by decide),
   (C6_enqueue_nonblocking fullQueue 7 true).1 (by decide)⟩

/-- C10: Cancel on an id outside the active set returns the not-found
error, fires no callback and leaves the state unchanged; on an id in the
active set whose item has a callback, the callback is invoked with
status cancelled before the active entry is removed, as witnessed by the
effect trace. -/
theorem C10_cancel_contract (q : TaskQueue) (taskId : Nat) :
    (q.active.lookup taskId = none →
      q.cancel taskId = (q, some ("task not found: " ++ toString taskId), [])) ∧
    (∀ item, q.active.lookup taskId = some item → item.hasCallback = true →
      q.cancel taskId =
        ({ q with active := q.active.filter (fun p => p.1 != taskId) }, none,
         [QueueAction.invokeCallback
            { taskId := taskId, progress := 0, status := .cancelled,
              message := "Task cancelled by user" },
          QueueAction.removeActive taskId])) := by
  constructor
  · intro h
    simp [TaskQueue.cancel, h]
  · intro item h hcb
    simp [TaskQueue.cancel, h, hcb]

/-- A queue with one active item, for the C10 witness. -/
def oneActiveQueue : TaskQueue :=
  { tasks := [{ taskId := 5, hasCallback := true }], capacity := 100,
    active := [(5, { taskId := 5, hasCallback := true })] }

/-- C10 witness at concrete inputs: cancelling an unknown id on a fresh
queue fails without effects; cancelling the single active id fires the
cancelled callback and then removes the entry. -/
theorem C10_cancel_contract_witness :
    newTaskQueue.cancel 9 = (newTaskQueue, some ("task not found: " ++ toString 9), []) ∧
    oneActiveQueue.cancel 5 =
      ({ oneActiveQueue with
          active := oneActiveQueue.active.filter (fun p => p.1 != 5) }, none,
       [QueueAction.invokeCallback
          { taskId := 5, progress := 0, status := .cancelled,
            message := "Task cancelled by user" },
        QueueAction.removeActive 5]) :=
  ⟨(C10_cancel_contract newTaskQueue 9).1 (by decide),
   (C10_cancel_contract oneActiveQueue 5).2
      { taskId := 5, hasCallback := true } (by decide) (by decide)⟩

/-! Helpers characterizing the runAgnoScript read loop. -/

/-- Concatenation, in stream order, of the content fields of the content
events; every other event type contributes nothing. -/
def contentConcat : List ScriptLine → String
  | [] => ""
  | l :: rest =>
    match l.event with
    | some ev => (if ev.type = "content" then ev.content else "") ++ contentConcat rest
    | none => contentConcat rest

/-- Raw texts of the lines that decoded as JSON events, in stream
order. -/
def decodedRaws : List ScriptLine → List String
  | [] => []
  | l :: rest =>
    match l.event with
    | some _ => l.raw :: decodedRaws rest
    | none => decodedRaws rest

/-- Content of the last error event, else the accumulator. -/
def lastErrorAcc : List ScriptLine → String → String
  | [], e => e
  | l :: rest, e =>
    match l.event with
    | some ev => lastErrorAcc rest (if ev.type = "error" then ev.content else e)
    | none => lastErrorAcc rest e

/-- Whether some line decodes to a cancelled event. -/
def hasCancelled (lines : List ScriptLine) : Bool :=
  lines.any fun l =>
    match l.event with
    | some ev => ev.type == "cancelled"
    | none => false

/-- Closed form of the read loop on a stream without a cancelled
event. -/
theorem runLoop_no_cancel (lines : List ScriptLine) (c : String)
    (logs : List String) (e : String) (h : hasCancelled lines = false) :
    runLoop lines c logs e =
      { fullContent := c ++ contentConcat lines,
        eventLogs := logs ++ decodedRaws lines,
        lastError := lastErrorAcc lines e,
        cancelledEarly := false } := by
  induction lines generalizing c logs e with
  | nil => simp [runLoop, contentConcat, decodedRaws, lastErrorAcc]
  | cons l rest ih =>
    rcases hev : l.event with _ | ev
    · simp only [runLoop, hev]
      rw [ih c logs e (by simpa [hasCancelled, hev] using h)]
      simp [contentConcat, decodedRaws, lastErrorAcc, hev]
    · have hnc : ev.type ≠ "cancelled" := by
        simp [hasCancelled, hev] at h
        simpa using h.1
      have hrest : hasCancelled rest = false := by
        simp [hasCancelled, hev] at h ⊢
        exact h.2
      simp only [runLoop, hev]
      by_cases hc : ev.type = "content"
      · rw [if_pos hc, ih _ _ _ hrest]
        simp [contentConcat, decodedRaws, lastErrorAcc, hev, hc,
          String.append_assoc]
      · rw [if_neg hc, if_neg hnc]
        by_cases herr : ev.type = "error"
        · rw [if_pos herr, ih _ _ _ hrest]
          simp [contentConcat, decodedRaws, lastErrorAcc, hev, hc, herr]
        · rw [if_neg herr, ih _ _ _ hrest]
          simp [contentConcat, decodedRaws, lastErrorAcc, hev, hc, herr]

/-- Scenario S3 line one: a content event with content partial. -/
def s3Line1 : ScriptLine :=
  { raw := "event-line-content-partial",
    event := some { type := "content", content := "partial" } }

/-- Scenario S3 line two: an error event with content boom. -/
def s3Line2 : ScriptLine :=
  { raw := "event-line-error-boom",
    event := some { type := "error", content := "boom" } }

/-- The finalized task row of scenario S3: runner emits a content event
then an error event and exits non-zero, starting from a fresh task. -/
def s3Final : TaskRec :=
  executeFinalize (executeStart {})
    (runAgnoScript true "scripts/agno_runner.py" [s3Line1, s3Line2]
      (some "exit status 1"))

/-- C2 counterexample: in scenario S3 the task ends failed and the
partial result is discarded, as claimed, but the emitted event lines are
not kept in the event logs: the stored event_logs field stays empty, so
it contains neither line, and the stored error is the wrapped message
rather than the bare event content. -/
theorem C2_counterexample :
    s3Final.status = .failed ∧
    s3Final.error = "python script error: boom" ∧
    s3Final.result = "" ∧
    s3Final.eventLogs = "" ∧
    s3Line1.raw ≠ "" ∧ s3Line2.raw ≠ "" := by decide

/-- C2 amended: when the subprocess exits non-zero after a stream (with
no cancelled event) containing an error event, the task ends failed with
the last error event content wrapped as python script error; the
accumulated partial content is discarded from the result, and the
emitted event lines are discarded as well: the event_logs field of the
task row is left untouched (event lines are persisted only on the
success and cancelled-event paths). -/
theorem C2_failure_discards (t : TaskRec) (p we : String)
    (lines : List ScriptLine)
    (h1 : hasCancelled lines = false)
    (h2 : lastErrorAcc lines "" ≠ "") :
    executeFinalize t (runAgnoScript true p lines (some we)) =
      { t with status := .failed,
               error := "python script error: " ++ lastErrorAcc lines "" } := by
  simp [runAgnoScript, executeFinalize, runLoop_no_cancel lines "" [] "" h1, h2]

/-- A fresh task row. -/
def emptyTask : TaskRec := {}

/-- C2 witness: the amended statement applied to scenario S3. -/
theorem C2_failure_discards_witness :
    executeFinalize emptyTask (runAgnoScript true "scripts/agno_runner.py"
        [s3Line1, s3Line2] (some "exit status 1")) =
      { emptyTask with
          status := .failed,
          error := "python script error: " ++
            lastErrorAcc [s3Line1, s3Line2] "" } :=
  C2_failure_discards emptyTask "scripts/agno_runner.py" "exit status 1"
    [s3Line1, s3Line2] (by decide) (by decide)

/-- Scenario S1 lines: started, two content events, completed. -/
def s1Lines : List ScriptLine :=
  [ { raw := "event-line-started",
      event := some { type := "started", content := "" } },
    { raw := "event-line-content-hello",
      event := some { type := "content", content := "hello" } },
    { raw := "event-line-content-world",
      event := some { type := "content", content := " world" } },
    { raw := "event-line-completed",
      event := some { type := "completed", content := "" } } ]

/-- C9: when the subprocess exits cleanly after a stream of events (none
of them a cancelled event, which ends the run early), the executor
writes status completed, progress 100, and a result equal to the
concatenation in stream order of the content fields of the content
events, other event types contributing nothing; the decoded event lines
are stored in event_logs. -/
theorem C9_success_final (t : TaskRec) (p : String) (lines : List ScriptLine)
    (h : hasCancelled lines = false) :
    executeFinalize (executeStart t) (runAgnoScript true p lines none) =
      { t with status := .completed, progress := 100,
               result := contentConcat lines,
               eventLogs := String.intercalate "\n" (decodedRaws lines) } := by
  simp [runAgnoScript, executeFinalize, executeStart,
    runLoop_no_cancel lines "" [] "" h]

/-- C9 witness: scenario S1 ends completed with progress 100 and result
hello world. -/
theorem C9_success_final_witness :
    executeFinalize (executeStart {}) (runAgnoScript true "scripts/agno_runner.py" s1Lines none) =
      { status := .completed, progress := 100, result := "hello world",
        eventLogs := String.intercalate "\n" (decodedRaws s1Lines),
        error := "" } := by
  rw [C9_success_final {} "scripts/agno_runner.py" s1Lines (by decide)]
  decide

/-! Helpers characterizing the broadcaster. -/

/-- Appending to a bounded list only while below the cap: the step shared
by the buffer append of Broadcast, the try-send, and the replay loop. -/
def pushCapped (cap : Nat) (l : List TaskEvent) (e : TaskEvent) : List TaskEvent :=
  if l.length < cap then l ++ [e] else l

theorem pushCapped_foldl (cap : Nat) (es : List TaskEvent) (l : List TaskEvent) :
    es.foldl (pushCapped cap) l = l ++ es.take (cap - l.length) := by
  induction es generalizing l with
  | nil => simp
  | cons e rest ih =>
    simp only [List.foldl]
    by_cases h : l.length < cap
    · rw [pushCapped, if_pos h, ih]
      have hc : cap - l.length = (cap - (l.length + 1)) + 1 := by omega
      rw [hc, List.take_succ_cons]
      simp
    · rw [pushCapped, if_neg h, ih]
      have h0 : cap - l.length = 0 := by omega
      have h1 : cap - (l ++ [e]).length = 0 := by
        simp; omega
      simp [h0, h1]

theorem trySend_eq_pushCapped (ch : List TaskEvent) (e : TaskEvent) :
    trySend ch e = pushCapped subscriberChanCap ch e := rfl

theorem replayInto_eq (es : List TaskEvent) (ch : List TaskEvent) :
    replayInto ch es = ch ++ es.take (subscriberChanCap - ch.length) := by
  induction es generalizing ch with
  | nil => simp [replayInto]
  | cons e rest ih =>
    rw [replayInto]
    by_cases h : ch.length < subscriberChanCap
    · rw [if_pos h, ih]
      have hc : subscriberChanCap - ch.length = (subscriberChanCap - (ch.length + 1)) + 1 := by
        omega
      rw [hc, List.take_succ_cons]
      simp
    · rw [if_neg h]
      have h0 : subscriberChanCap - ch.length = 0 := by omega
      simp [h0]

theorem broadcastAll_buffer (es : List TaskEvent) (b : Broadcaster) :
    (b.broadcastAll es).buffer = b.buffer ++ es.take (maxEventBuffer - b.buffer.length) := by
  induction es generalizing b with
  | nil => simp [Broadcaster.broadcastAll]
  | cons e rest ih =>
    rw [Broadcaster.broadcastAll, List.foldl]
    rw [show (List.foldl Broadcaster.broadcast (b.broadcast e) rest) =
        (b.broadcast e).broadcastAll rest from rfl, ih]
    rw [Broadcaster.broadcast]
    by_cases h : b.buffer.length < maxEventBuffer
    · have hc : maxEventBuffer - b.buffer.length =
          (maxEventBuffer - (b.buffer.length + 1)) + 1 := by omega
      simp only [if_pos h]
      rw [hc, List.take_succ_cons]
      simp
    · have h0 : maxEventBuffer - b.buffer.length = 0 := by omega
      simp only [if_neg h]
      simp [h0]

theorem broadcastAll_chans (es : List TaskEvent) (b : Broadcaster) :
    (b.broadcastAll es).subscriberChans =
      b.subscriberChans.map (fun ch => es.foldl (pushCapped subscriberChanCap) ch) := by
  induction es generalizing b with
  | nil => simp [Broadcaster.broadcastAll]
  | cons e rest ih =>
    rw [Broadcaster.broadcastAll, List.foldl]
    rw [show (List.foldl Broadcaster.broadcast (b.broadcast e) rest) =
        (b.broadcast e).broadcastAll rest from rfl, ih]
    rw [Broadcaster.broadcast]
    simp only [List.map_map]
    rfl

/-- Closed form for a subscriber that attaches after the broadcasts es
and then observes the broadcasts fs: it receives the first
min(length es, 200) events (the buffer drops overflow beyond 200 rather
than rotating), followed by a prefix of fs limited by the channel
capacity of 200. -/
theorem lateSubscriberChans (es fs : List TaskEvent) :
    (((Broadcaster.empty.broadcastAll es).subscribe).broadcastAll fs).subscriberChans =
      [es.take 200 ++ fs.take (200 - (es.take 200).length)] := by
  have hbuf : (Broadcaster.empty.broadcastAll es).buffer = es.take 200 := by
    rw [broadcastAll_buffer]
    simp [Broadcaster.empty, maxEventBuffer]
  have hchans : (Broadcaster.empty.broadcastAll es).subscriberChans = [] := by
    rw [broadcastAll_chans]
    simp [Broadcaster.empty]
  rw [broadcastAll_chans, Broadcaster.subscribe, hchans, hbuf, replayInto_eq]
  simp only [List.length_nil, Nat.sub_zero, List.nil_append, List.map_cons,
    List.map_nil, pushCapped_foldl]
  rw [show subscriberChanCap = 200 from rfl, List.take_take]
  simp

/-- C3 amended: the observed sequence of a subscriber attached after the
broadcasts es, across the later broadcasts fs, equals the first
min(length es, 200) broadcast events in order followed by a prefix of
the subsequent publish order; when more than 200 events preceded the
subscription this is a prefix of the earliest 200 events, not of the
most recent 200, because buffer overflow is dropped rather than
rotated. -/
theorem C3_late_subscriber_replay (es fs : List TaskEvent) :
    (((Broadcaster.empty.broadcastAll es).subscribe).broadcastAll fs).subscriberChans =
      [es.take 200 ++ fs.take (200 - (es.take 200).length)] :=
  lateSubscriberChans es fs

/-- An injective family of events for the C3 counterexample. -/
def mkEv (n : Nat) : TaskEvent :=
  { progress := (n : Int) }

/-- A publish history of 201 distinct events. -/
def c3Events : List TaskEvent :=
  mkEv 0 :: (List.range' 1 200).map mkEv

/-- The channel of a subscriber attached after the 201 broadcasts. -/
def c3Observed : List TaskEvent :=
  ((Broadcaster.empty.broadcastAll c3Events).subscribe).subscriberChans.headD []

/-- C3 counterexample: after k = 201 broadcasts, the late subscriber
receives the earliest 200 events, whose first element is the very first
broadcast event; this sequence is nonempty and is not a prefix of the
most recent 200 events, whose first element is the second broadcast
event.  The claim that the subscriber receives a prefix of the most
recent 200 broadcast events is therefore false at this input. -/
theorem C3_counterexample :
    c3Observed.head? = some (mkEv 0) ∧
    (c3Events.drop 1).head? = some (mkEv 1) ∧
    ¬ (∃ t, c3Observed ++ t = c3Events.drop 1) := by
  have hobs : c3Observed = c3Events.take 200 := by
    have h := lateSubscriberChans c3Events []
    rw [Broadcaster.broadcastAll, List.foldl_nil] at h
    rw [c3Observed, h]
    simp
  have h1 : c3Observed.head? = some (mkEv 0) := by
    rw [hobs]
    rfl
  have h2 : (c3Events.drop 1).head? = some (mkEv 1) := by rfl
  refine ⟨h1, h2, ?_⟩
  rintro ⟨t, ht⟩
  have hne : c3Observed ≠ [] := by
    intro hnil
    rw [hnil] at h1
    simp at h1
  have hh := congrArg List.head? ht
  rw [List.head?_append_of_ne_nil _ hne, h1, h2] at hh
  have : mkEv 0 = mkEv 1 := by injection hh
  have : (0 : Int) = 1 := congrArg TaskEvent.progress this
  omega

/-! Claims C4 and C5: executor resource resolution. -/

/-- Robot document of scenario S2: references soul ghost and mind m. -/
def s2RobotDoc : RawDoc :=
  { apiVersion := APIVersion, kind := "Robot", metadata := { name := "r" },
    spec := { soul := "ghost", mind := "m" } }

/-- Repository of scenario S2: the robot exists, nothing else does; a
missing row surfaces as the record-not-found lookup error. -/
def s2Repo : String → String → Except String RawDoc
  | "Robot", "r" => .ok s2RobotDoc
  | _, _ => .error "record not found"

/-- Whether the character sequence pin occurs contiguously inside the
character sequence hay. -/
def containsSeq (pin : List Char) : List Char → Bool
  | [] => pin.isEmpty
  | h :: t => pin.isPrefixOf (h :: t) || containsSeq pin t

/-- A stored soul document whose text does not parse as a valid resource
(its apiVersion is not the recognized one). -/
def badSoulDoc : RawDoc :=
  { apiVersion := "v0", kind := "Soul", metadata := { name := "ghost" },
    spec := { personality := "x" } }

/-- Repository where the referenced soul exists but its stored spec is
unparseable. -/
def s2RepoBadSoul : String → String → Except String RawDoc
  | "Robot", "r" => .ok s2RobotDoc
  | "Soul", "ghost" => .ok badSoulDoc
  | _, _ => .error "record not found"

/-- C4 counterexample: with the soul named ghost missing, resolution does
fail, but the error message identifies only the kind and the lookup
cause, not the reference name (ghost does not occur in it); and with a
soul whose stored spec is unparseable, resolution does not fail with an
error at all: the discarded parse error leads to a panicking type
assertion, an abnormal termination. -/
theorem C4_counterexample :
    (executeBot s2Repo 1 "hi" "r" = .err "failed to load soul: record not found" ∧
      containsSeq "ghost".toList ("failed to load soul: record not found").toList = false) ∧
    executeBot s2RepoBadSoul 1 "hi" "r" =
      .panicked "interface conversion: crd.Resource is not *crd.Soul" := by
  exact ⟨⟨rfl, by decide⟩, rfl⟩

/-- C4 amended: for a robot task whose robot loads and parses, a missing
Soul or Mind reference fails the plan with an error naming the kind of
the dangling reference and the lookup cause (but not the reference
name), while an unparseable stored Soul or Mind spec does not produce an
error: the parse failure is discarded and the following type assertion
panics. -/
theorem C4_resolution_failures (repo : String → String → Except String RawDoc)
    (taskId : Nat) (prompt name : String) (robotDoc : RawDoc) (robot : Robot)
    (hR : repo "Robot" name = .ok robotDoc)
    (hP : parse robotDoc = .ok (.robot robot)) :
    (∀ cause, repo "Soul" robot.spec.soul = .error cause →
      executeBot repo taskId prompt name = .err ("failed to load soul: " ++ cause)) ∧
    (∀ soulDoc e, repo "Soul" robot.spec.soul = .ok soulDoc →
      parse soulDoc = .error e →
      executeBot repo taskId prompt name =
        .panicked "interface conversion: crd.Resource is not *crd.Soul") ∧
    (∀ soulDoc soul cause, repo "Soul" robot.spec.soul = .ok soulDoc →
      parse soulDoc = .ok (.soul soul) →
      repo "Mind" robot.spec.mind = .error cause →
      executeBot repo taskId prompt name = .err ("failed to load mind: " ++ cause)) ∧
    (∀ soulDoc soul mindDoc e, repo "Soul" robot.spec.soul = .ok soulDoc →
      parse soulDoc = .ok (.soul soul) →
      repo "Mind" robot.spec.mind = .ok mindDoc →
      parse mindDoc = .error e →
      executeBot repo taskId prompt name =
        .panicked "interface conversion: crd.Resource is not *crd.Mind") := by
  refine ⟨?_, ?_, ?_, ?_⟩ <;> intros <;> simp_all [executeBot]

/-- C4 witness: the amended statement applied to scenario S2. -/
theorem C4_resolution_failures_witness :
    executeBot s2Repo 1 "hi" "r" =
      .err ("failed to load soul: " ++ "record not found") :=
  (C4_resolution_failures s2Repo 1 "hi" "r" s2RobotDoc
      (decodeRobot s2RobotDoc) rfl rfl).1 "record not found" rfl

/-- Team document for the C5 counterexample: a leader L is named and one
member m is listed. -/
def c5TeamDoc : RawDoc :=
  { apiVersion := APIVersion, kind := "Team", metadata := { name := "t" },
    spec := { leader := "L", members := ["m"], mode := "coordinate" } }

/-- Robot document of the valid member m. -/
def c5RobotDoc : RawDoc :=
  { apiVersion := APIVersion, kind := "Robot", metadata := { name := "m" },
    spec := { soul := "s", mind := "mm" } }

/-- Soul document of the valid member. -/
def c5SoulDoc : RawDoc :=
  { apiVersion := APIVersion, kind := "Soul", metadata := { name := "s" },
    spec := { personality := "helpful" } }

/-- Mind document of the valid member. -/
def c5MindDoc : RawDoc :=
  { apiVersion := APIVersion, kind := "Mind", metadata := { name := "mm" },
    spec := { provider := "ollama", modelID := "llama3" } }

/-- Repository for the C5 counterexample: the team, the member robot and
its soul and mind all exist; the leader robot L does not. -/
def c5Repo : String → String → Except String RawDoc
  | "Team", "t" => .ok c5TeamDoc
  | "Robot", "m" => .ok c5RobotDoc
  | "Soul", "s" => .ok c5SoulDoc
  | "Mind", "mm" => .ok c5MindDoc
  | _, _ => .error "record not found"

/-- C5 counterexample: the member m loads successfully, so a valid member
remains, yet the plan fails because the named leader fails to load; the
claim that the plan fails exactly when zero valid members and no leader
remain is therefore false at this input. -/
theorem C5_counterexample :
    (∃ memberAndMind, loadRobotAsMember c5Repo "m" = .ok memberAndMind) ∧
    executeTeam c5Repo 1 "hi" "t" =
      .err "failed to load leader robot: failed to load robot: record not found" := by
  exact ⟨⟨_, rfl⟩, rfl⟩

/-- The members of a list of names that load successfully, paired with
their minds, in list order. -/
def memberLoads (repo : String → String → Except String RawDoc)
    (names : List String) : List (AgnoMemberConfig × MindSpec) :=
  names.filterMap fun n =>
    match loadRobotAsMember repo n with
    | .ok p => some p
    | _ => none

/-- No member load panics (no member has an unparseable soul or mind
spec). -/
def membersPanicFree (repo : String → String → Except String RawDoc)
    (names : List String) : Prop :=
  ∀ n ∈ names, ∀ m, loadRobotAsMember repo n ≠ .panicked m

/-- Closed form of the member loop when no member load panics: failing
members are skipped, the loaded members accumulate in order, and the
selected mind is the incoming one or else the mind of the first loaded
member. -/
theorem loadMembersLoop_eq (repo : String → String → Except String RawDoc)
    (names : List String) (acc : List AgnoMemberConfig) (lm : Option MindSpec)
    (h : membersPanicFree repo names) :
    loadMembersLoop repo names acc lm =
      .ok (acc ++ (memberLoads repo names).map Prod.fst,
           match lm with
           | some m => some m
           | none => (memberLoads repo names).head?.map Prod.snd) := by
  induction names generalizing acc lm with
  | nil =>
    cases lm <;> simp [loadMembersLoop, memberLoads]
  | cons n rest ih =>
    have hn : ∀ m, loadRobotAsMember repo n ≠ .panicked m :=
      fun m => h n (by simp) m
    have hrest : membersPanicFree repo rest :=
      fun x hx m => h x (by simp [hx]) m
    rw [loadMembersLoop]
    cases hl : loadRobotAsMember repo n with
    | ok p =>
      obtain ⟨member, mind⟩ := p
      cases lm with
      | none =>
        dsimp only
        rw [ih (acc ++ [member]) (some mind) hrest]
        simp [memberLoads, hl]
      | some m0 =>
        dsimp only
        rw [ih (acc ++ [member]) (some m0) hrest]
        simp [memberLoads, hl]
    | err m =>
      dsimp only
      rw [ih acc lm hrest]
      simp [memberLoads, hl]
    | panicked m =>
      exact absurd hl (hn m)

/-- C5 amended: for a team task whose team loads and parses and whose
member loads do not panic, a failure to load an individual member only
skips that member; when no leader is named, the plan fails exactly when
zero members load, and otherwise succeeds driving the provider
configuration with the mind of the first successfully loaded member;
when a named leader loads successfully, the plan succeeds (regardless of
member failures) driving the provider configuration with the leader
mind.  When a named leader fails to load, the plan fails even though
valid members may remain (the counterexample), and a member whose soul
or mind spec is unparseable panics instead of being skipped. -/
theorem C5_team_resolution (repo : String → String → Except String RawDoc)
    (taskId : Nat) (prompt name : String) (teamDoc : RawDoc) (teamDef : Team)
    (hT : repo "Team" name = .ok teamDoc)
    (hP : parse teamDoc = .ok (.team teamDef))
    (hNoPanic : membersPanicFree repo teamDef.spec.members) :
    (teamDef.spec.leader = "" →
      ((memberLoads repo teamDef.spec.members = [] →
          executeTeam repo taskId prompt name =
            .err "team has no valid members or leader") ∧
        (∀ p ps, memberLoads repo teamDef.spec.members = p :: ps →
          executeTeam repo taskId prompt name =
            .ok { type := "team", prompt := prompt,
                  sessionID := "task-" ++ toString taskId,
                  model := { provider := p.2.provider, modelID := p.2.modelID,
                             apiKey := p.2.apiKey, baseURL := p.2.baseURL },
                  team := some { name := teamDef.metadata.name,
                                 mode := teamDef.spec.mode,
                                 description := teamDef.spec.description,
                                 leader := none,
                                 members := (p :: ps).map Prod.fst } }))) ∧
    (∀ lCfg lMind, teamDef.spec.leader ≠ "" →
      loadRobotAsMember repo teamDef.spec.leader = .ok (lCfg, lMind) →
      executeTeam repo taskId prompt name =
        .ok { type := "team", prompt := prompt,
              sessionID := "task-" ++ toString taskId,
              model := { provider := lMind.provider, modelID := lMind.modelID,
                         apiKey := lMind.apiKey, baseURL := lMind.baseURL },
              team := some { name := teamDef.metadata.name,
                             mode := teamDef.spec.mode,
                             description := teamDef.spec.description,
                             leader := some lCfg,
                             members :=
                               (memberLoads repo teamDef.spec.members).map
                                 Prod.fst } }) := by
  constructor
  · intro hl
    constructor
    · intro hm
      simp only [executeTeam, hT, hP]
      rw [if_neg (by simp [hl])]
      dsimp only
      rw [loadMembersLoop_eq repo teamDef.spec.members [] none hNoPanic]
      simp [hm]
    · intro p ps hm
      simp only [executeTeam, hT, hP]
      rw [if_neg (by simp [hl])]
      dsimp only
      rw [loadMembersLoop_eq repo teamDef.spec.members [] none hNoPanic]
      simp [hm]
  · intro lCfg lMind hl hload
    simp only [executeTeam, hT, hP]
    rw [if_pos hl, hload]
    dsimp only
    rw [loadMembersLoop_eq repo teamDef.spec.members [] (some lMind) hNoPanic]
    simp

/-- Team document for the C5 witness: no leader, one member that fails
to load. -/
def c5TeamDoc2 : RawDoc :=
  { apiVersion := APIVersion, kind := "Team", metadata := { name := "t2" },
    spec := { leader := "", members := ["ghost"], mode := "route" } }

/-- Repository for the C5 witness: only the team document exists. -/
def c5Repo2 : String → String → Except String RawDoc
  | "Team", "t2" => .ok c5TeamDoc2
  | _, _ => .error "record not found"

/-- C5 witness: with no leader and the only member failing to load, the
amended statement yields the no-valid-members error. -/
theorem C5_team_resolution_witness :
    executeTeam c5Repo2 2 "hi" "t2" = .err "team has no valid members or leader" :=
  ((C5_team_resolution c5Repo2 2 "hi" "t2" c5TeamDoc2 (decodeTeam c5TeamDoc2)
      rfl rfl (by
        intro n hn m hpan
        simp [c5TeamDoc2, decodeTeam] at hn
        subst hn
        rw [show loadRobotAsMember c5Repo2 "ghost" =
            .err "failed to load robot: record not found" from rfl] at hpan
        simp at hpan)).1 rfl).1 rfl

/-! Claims C7 and C8: the parser contract and the marshal round trip. -/

theorem parseKind_isOk (d : RawDoc) : (parseKind d).isOk = knownKind d.kind := by
  unfold parseKind knownKind
  split_ifs <;> simp_all [Except.isOk, Except.toBool]

theorem parseKind_getKind (d : RawDoc) (r : Resource)
    (h : parseKind d = .ok r) : r.getKind = d.kind := by
  unfold parseKind at h
  split_ifs at h with h1 h2 h3 h4 h5 h6 <;>
    (injection h with h; subst h; simp [Resource.getKind, *])

/-- C7: Parse accepts a document exactly when its apiVersion is the
single recognized value, its kind is one of the six known kinds, and the
kind-specific validation of the decoded resource succeeds; and whenever
it succeeds it returns the typed resource decoded for the kind named by
the document. -/
theorem C7_parse_contract (d : RawDoc) :
    ((parse d).isOk = true ↔
      (d.apiVersion = APIVersion ∧ knownKind d.kind = true ∧
        ∀ r, parseKind d = Except.ok r → r.validate = Except.ok ())) ∧
    (∀ r, parse d = Except.ok r →
      parseKind d = Except.ok r ∧ r.getKind = d.kind) := by
  by_cases hv : d.apiVersion = APIVersion
  · cases hpk : parseKind d with
    | error e =>
      have hk : knownKind d.kind = false := by
        have h := parseKind_isOk d
        rw [hpk] at h
        simpa [Except.isOk, Except.toBool] using h.symm
      constructor
      · rw [parse, if_neg (by simp [hv]), hpk]
        simp [hk, Except.isOk, Except.toBool]
      · intro r hr
        rw [parse, if_neg (by simp [hv]), hpk] at hr
        simp at hr
    | ok r0 =>
      have hk : knownKind d.kind = true := by
        have h := parseKind_isOk d
        rw [hpk] at h
        simpa [Except.isOk, Except.toBool] using h.symm
      cases hval : r0.validate with
      | error e =>
        constructor
        · rw [parse, if_neg (by simp [hv]), hpk]
          dsimp only
          rw [hval]
          constructor
          · intro h
            simp [Except.isOk, Except.toBool] at h
          · rintro ⟨-, -, hall⟩
            have h2 := hall r0 rfl
            rw [hval] at h2
            simp at h2
        · intro r hr
          rw [parse, if_neg (by simp [hv]), hpk] at hr
          dsimp only at hr
          rw [hval] at hr
          simp at hr
      | ok u =>
        constructor
        · rw [parse, if_neg (by simp [hv]), hpk]
          dsimp only
          rw [hval]
          constructor
          · intro _
            refine ⟨hv, hk, ?_⟩
            intro r hr
            injection hr with hr
            subst hr
            simp [hval]
          · intro _
            simp [Except.isOk, Except.toBool]
        · intro r hr
          rw [parse, if_neg (by simp [hv]), hpk] at hr
          dsimp only at hr
          rw [hval] at hr
          injection hr with hr
          subst hr
          exact ⟨rfl, parseKind_getKind d r0 hpk⟩
  · constructor
    · rw [parse, if_pos (by simpa using hv)]
      simp [hv, Except.isOk, Except.toBool]
    · intro r hr
      rw [parse, if_pos (by simpa using hv)] at hr
      simp at hr

/-- A fully valid soul document for the C7 witness. -/
def soulDoc0 : RawDoc :=
  { apiVersion := "xgent.ai/v1", kind := "Soul", metadata := { name := "a" },
    spec := { personality := "You are helpful." } }

/-- C7 witness: the contract applied to a concrete valid soul document,
whose parse succeeds and returns the decoded Soul. -/
theorem C7_parse_contract_witness :
    parseKind soulDoc0 = Except.ok (.soul (decodeSoul soulDoc0)) ∧
    Resource.getKind (.soul (decodeSoul soulDoc0)) = soulDoc0.kind :=
  (C7_parse_contract soulDoc0).2 (.soul (decodeSoul soulDoc0)) rfl

theorem parse_soul_branch (d : RawDoc) (hv : d.apiVersion = APIVersion)
    (hk : d.kind = "Soul") :
    parse d =
      (match (decodeSoul d).validate with
        | .error e => .error ("validation failed: " ++ e)
        | .ok _ => .ok (.soul (decodeSoul d))) := by
  rw [parse, if_neg (by simp [hv]), parseKind, if_pos hk]
  rfl

theorem parse_mind_branch (d : RawDoc) (hv : d.apiVersion = APIVersion)
    (hk : d.kind = "Mind") :
    parse d =
      (match (decodeMind d).validate with
        | .error e => .error ("validation failed: " ++ e)
        | .ok _ => .ok (.mind (decodeMind d))) := by
  rw [parse, if_neg (by simp [hv]), parseKind,
    if_neg (by simp [hk]), if_pos hk]
  rfl

theorem parse_craft_branch (d : RawDoc) (hv : d.apiVersion = APIVersion)
    (hk : d.kind = "Craft") :
    parse d =
      (match (decodeCraft d).validate with
        | .error e => .error ("validation failed: " ++ e)
        | .ok _ => .ok (.craft (decodeCraft d))) := by
  rw [parse, if_neg (by simp [hv]), parseKind,
    if_neg (by simp [hk]), if_neg (by simp [hk]), if_pos hk]
  rfl

theorem parse_robot_branch (d : RawDoc) (hv : d.apiVersion = APIVersion)
    (hk : d.kind = "Robot") :
    parse d =
      (match (decodeRobot d).validate with
        | .error e => .error ("validation failed: " ++ e)
        | .ok _ => .ok (.robot (decodeRobot d))) := by
  rw [parse, if_neg (by simp [hv]), parseKind,
    if_neg (by simp [hk]), if_neg (by simp [hk]), if_neg (by simp [hk]),
    if_pos hk]
  rfl

theorem parse_team_branch (d : RawDoc) (hv : d.apiVersion = APIVersion)
    (hk : d.kind = "Team") :
    parse d =
      (match (decodeTeam d).validate with
        | .error e => .error ("validation failed: " ++ e)
        | .ok _ => .ok (.team (decodeTeam d))) := by
  rw [parse, if_neg (by simp [hv]), parseKind,
    if_neg (by simp [hk]), if_neg (by simp [hk]), if_neg (by simp [hk]),
    if_neg (by simp [hk]), if_pos hk]
  rfl

theorem parse_collab_branch (d : RawDoc) (hv : d.apiVersion = APIVersion)
    (hk : d.kind = "Collaboration") :
    parse d =
      (match (decodeCollaboration d).validate with
        | .error e => .error ("validation failed: " ++ e)
        | .ok _ => .ok (.collaboration (decodeCollaboration d))) := by
  rw [parse, if_neg (by simp [hv]), parseKind,
    if_neg (by simp [hk]), if_neg (by simp [hk]), if_neg (by simp [hk]),
    if_neg (by simp [hk]), if_neg (by simp [hk]), if_pos hk]
  rfl

/-- C8: parsing the marshal of any resource that Parse accepts yields
that resource again. -/
theorem C8_marshal_roundtrip (d : RawDoc) (r : Resource)
    (h : parse d = Except.ok r) : parse (marshal r) = Except.ok r := by
  have hv : d.apiVersion = APIVersion := by
    by_contra hv
    rw [parse, if_pos (by simpa using hv)] at h
    simp at h
  cases hpk : parseKind d with
  | error e =>
    rw [parse, if_neg (by simp [hv]), hpk] at h
    simp at h
  | ok r0 =>
    rw [parse, if_neg (by simp [hv]), hpk] at h
    dsimp only at h
    cases hval : r0.validate with
    | error e =>
      rw [hval] at h
      simp at h
    | ok u =>
      rw [hval] at h
      injection h with h
      subst h
      unfold parseKind at hpk
      split_ifs at hpk with h1 h2 h3 h4 h5 h6
      · injection hpk with hpk
        subst hpk
        rw [parse_soul_branch (marshal (.soul (decodeSoul d)))
            (by simpa [marshal, marshalSoul, decodeSoul] using hv)
            (by simpa [marshal, marshalSoul, decodeSoul] using h1)]
        rw [show decodeSoul (marshal (.soul (decodeSoul d))) = decodeSoul d from rfl]
        rw [show Resource.validate (.soul (decodeSoul d)) =
            (decodeSoul d).validate from rfl] at hval
        rw [hval]
      · injection hpk with hpk
        subst hpk
        rw [parse_mind_branch (marshal (.mind (decodeMind d)))
            (by simpa [marshal, marshalMind, decodeMind] using hv)
            (by simpa [marshal, marshalMind, decodeMind] using h2)]
        rw [show decodeMind (marshal (.mind (decodeMind d))) = decodeMind d from rfl]
        rw [show Resource.validate (.mind (decodeMind d)) =
            (decodeMind d).validate from rfl] at hval
        rw [hval]
      · injection hpk with hpk
        subst hpk
        rw [parse_craft_branch (marshal (.craft (decodeCraft d)))
            (by simpa [marshal, marshalCraft, decodeCraft] using hv)
            (by simpa [marshal, marshalCraft, decodeCraft] using h3)]
        rw [show decodeCraft (marshal (.craft (decodeCraft d))) = decodeCraft d from rfl]
        rw [show Resource.validate (.craft (decodeCraft d)) =
            (decodeCraft d).validate from rfl] at hval
        rw [hval]
      · injection hpk with hpk
        subst hpk
        rw [parse_robot_branch (marshal (.robot (decodeRobot d)))
            (by simpa [marshal, marshalRobot, decodeRobot] using hv)
            (by simpa [marshal, marshalRobot, decodeRobot] using h4)]
        rw [show decodeRobot (marshal (.robot (decodeRobot d))) = decodeRobot d from rfl]
        rw [show Resource.validate (.robot (decodeRobot d)) =
            (decodeRobot d).validate from rfl] at hval
        rw [hval]
      · injection hpk with hpk
        subst hpk
        rw [parse_team_branch (marshal (.team (decodeTeam d)))
            (by simpa [marshal, marshalTeam, decodeTeam] using hv)
            (by simpa [marshal, marshalTeam, decodeTeam] using h5)]
        rw [show decodeTeam (marshal (.team (decodeTeam d))) = decodeTeam d from rfl]
        rw [show Resource.validate (.team (decodeTeam d)) =
            (decodeTeam d).validate from rfl] at hval
        rw [hval]
      · injection hpk with hpk
        subst hpk
        rw [parse_collab_branch (marshal (.collaboration (decodeCollaboration d)))
            (by simpa [marshal, marshalCollaboration, decodeCollaboration] using hv)
            (by simpa [marshal, marshalCollaboration, decodeCollaboration] using h6)]
        rw [show decodeCollaboration (marshal (.collaboration (decodeCollaboration d))) =
            decodeCollaboration d from rfl]
        rw [show Resource.validate (.collaboration (decodeCollaboration d)) =
            (decodeCollaboration d).validate from rfl] at hval
        rw [hval]

/-- C8 witness: the round trip applied to the concrete soul document. -/
theorem C8_marshal_roundtrip_witness :
    parse (marshal (.soul (decodeSoul soulDoc0))) =
      Except.ok (.soul (decodeSoul soulDoc0)) :=
  C8_marshal_roundtrip soulDoc0 (.soul (decodeSoul soulDoc0)) rfl

end Xgent
